import Mathlib

/-!
Shallow embedding of the feed-in control core of the ioBroker.zeropv adapter.

Numbers are modelled as rationals (JavaScript numbers; `NaN`/`Infinity` do
not arise on the modelled paths, and non-numeric reads are modelled
explicitly by `ReadResult`).  Timestamps (`Date.now()`, `pollingInterval`)
are rationals in milliseconds.  The per-device I/O of one evaluation tick is
modelled by two oracles: `reads i` is the outcome of
`getForeignStateAsync(...current_limit_absolute)` for inverter `i`
(`src/lib/inverter-manager.js`), and `writeOk i` tells whether
`setForeignStateAsync(...limit_nonpersistent_absolute, v)` for inverter `i`
succeeds (`src/main.js`, `applyInverterPowerLimits`).  Adapter-own state
writes (`setState`) are recorded in the result structures.
-/

namespace ZeroPV

/-- One configured inverter as the control loop sees it after configuration
validation: only its maximum output power matters here. -/
structure Inverter where
  maxPower : ℚ
deriving DecidableEq

/-- The configuration fields consumed by the control loop
(`targetFeedIn`, `feedInThreshold`, `pollingInterval`, `inverters`). -/
structure Config where
  targetFeedIn : ℚ
  feedInThreshold : ℚ
  pollingInterval : ℚ
  inverters : List Inverter
deriving DecidableEq

/-- JavaScript `a || b` on numbers: `0` is falsy and is replaced by the
default (`NaN` is not modelled).  Used for `inverter.maxPower || 2250` in
`calculateNewClampedLimits`. -/
def jsOr (a b : ℚ) : ℚ := if a = 0 then b else a

/-- Outcome of reading one inverter's `current_limit_absolute` state, as
distinguished by `getAllInverterLimits` (`src/lib/inverter-manager.js`):
the read may throw, the state or its value may be missing, `parseFloat`
may yield `NaN`, or a numeric value is obtained. -/
inductive ReadResult where
  | err
  | missing
  | nonNumeric
  | val (v : ℚ)
deriving DecidableEq

/-- One entry of the limit snapshot built by `getAllInverterLimits`
(the `inverterObject`/`controlObject` strings are determined by the index
and carry no information used by the algorithm). -/
structure Limit where
  index : ℕ
  value : ℚ
deriving DecidableEq

/-- One entry of the plan built by `calculateNewClampedLimits`. -/
structure NewLimit where
  index : ℕ
  oldValue : ℚ
  newValue : ℚ
deriving DecidableEq

/-- Return value of `calculateNewClampedLimits`. -/
structure CalcResult where
  newLimits : List NewLimit
  totalOldLimit : ℚ
  totalNewLimit : ℚ
deriving DecidableEq

/-- Snapshot reader, from `InverterManager.getAllInverterLimits`
(`src/lib/inverter-manager.js`): loop over the configured inverters in
order; a numeric read contributes an entry, every other outcome (throw,
missing state, missing value, non-numeric value) is logged and skipped. -/
def getAllInverterLimits (cfg : Config) (reads : ℕ → ReadResult) : List Limit :=
  (List.range cfg.inverters.length).filterMap fun i =>
    match reads i with
    | ReadResult.val v => some ⟨i, v⟩
    | _ => none

/-- The aggregate raw target (`newTotalLimit`) of
`PowerCalculator.calculateNewClampedLimits` (`src/lib/power-calculator.js`):
the importing branch (`g ≥ 0`) gives `totalOldLimit + g + targetFeedIn`;
the exporting branch gives `max 0 (totalOldLimit - excessFeedIn)` with
`excessFeedIn = -g - targetFeedIn`. -/
def rawNewTotalLimit (currentGridPower totalOldLimit : ℚ) (cfg : Config) : ℚ :=
  if 0 ≤ currentGridPower then
    totalOldLimit + currentGridPower + cfg.targetFeedIn
  else
    max 0 (totalOldLimit - (-currentGridPower - cfg.targetFeedIn))

/-- Body of the per-inverter loop of `calculateNewClampedLimits`: clamp the
equal share to the inverter's capacity (`maxPower || 2250`), push the plan
entry, and accumulate the post-clamp total.  The JS code indexes
`config.inverters[limit.index]`; an out-of-range index would throw there
and never occurs in the pipeline (snapshot indices are positions in
`config.inverters`), so it is modelled by a default lookup. -/
def calcStep (cfg : Config) (newLimitPerInverter : ℚ)
    (acc : List NewLimit × ℚ) (l : Limit) : List NewLimit × ℚ :=
  let inverter := cfg.inverters.getD l.index ⟨0⟩
  let clampedLimit := min newLimitPerInverter (jsOr inverter.maxPower 2250)
  (acc.1 ++ [⟨l.index, l.value, clampedLimit⟩], acc.2 + clampedLimit)

/-- The `totalOldLimit` reduce of `calculateNewClampedLimits`:
sum of the snapshot values. -/
def totalOldLimitOf (currentLimits : List Limit) : ℚ :=
  currentLimits.foldl (fun s l => s + l.value) 0

/-- The `newLimitPerInverter` of `calculateNewClampedLimits`: the raw
aggregate target divided equally among the configured inverters with
`Math.floor`. -/
def newLimitPerInverterOf (currentGridPower : ℚ) (currentLimits : List Limit)
    (cfg : Config) : ℚ :=
  (⌊rawNewTotalLimit currentGridPower (totalOldLimitOf currentLimits) cfg /
      (cfg.inverters.length : ℚ)⌋ : ℚ)

/-- Distribution planner, from `PowerCalculator.calculateNewClampedLimits`
(`src/lib/power-calculator.js`, delegated to by
`Zeropv.calculateNewClampedLimits` in `src/main.js`): sum the current
limits, compute the raw aggregate target, split it equally with
`Math.floor`, then clamp per inverter while accumulating the post-clamp
total. -/
def calculateNewClampedLimits (currentGridPower : ℚ)
    (currentLimits : List Limit) (cfg : Config) : CalcResult :=
  let r := currentLimits.foldl
    (calcStep cfg (newLimitPerInverterOf currentGridPower currentLimits cfg)) ([], 0)
  ⟨r.1, totalOldLimitOf currentLimits, r.2⟩

/-- Effects of one `applyInverterPowerLimits` call (`src/main.js`):
`writes` are the `setForeignStateAsync` device commands issued,
`inverterLimitStates` the per-inverter `inverter<i>.powerLimit` state
updates performed in the write's resolution handler, `writeErrors` the
devices whose write failed (caught and logged per device), and
`currentPowerLimit`/`powerControlActive` the adapter states written after
all writes settle. -/
structure ApplyResult where
  writes : List (ℕ × ℚ)
  inverterLimitStates : List (ℕ × ℚ)
  writeErrors : List ℕ
  currentPowerLimit : ℚ
  powerControlActive : Bool
deriving DecidableEq

/-- Body of the per-entry loop of `applyInverterPowerLimits`: an unchanged
entry is skipped entirely; a changed entry gets a write command, whose
success additionally updates the per-inverter state and whose failure is
recorded (caught per device, not propagated). -/
def applyStep (writeOk : ℕ → Bool)
    (acc : List (ℕ × ℚ) × List (ℕ × ℚ) × List ℕ) (l : NewLimit) :
    List (ℕ × ℚ) × List (ℕ × ℚ) × List ℕ :=
  if l.newValue ≠ l.oldValue then
    if writeOk l.index then
      (acc.1 ++ [(l.index, l.newValue)], acc.2.1 ++ [(l.index, l.newValue)], acc.2.2)
    else
      (acc.1 ++ [(l.index, l.newValue)], acc.2.1, acc.2.2 ++ [l.index])
  else
    acc

/-- Limit actuator, from `Zeropv.applyInverterPowerLimits` (`src/main.js`):
issue a write for every changed entry, wait for all to settle (each with
its own catch handler), then unconditionally report the planned aggregate
(`currentPowerLimit`) and an active status (`powerControlActive = true`). -/
def applyInverterPowerLimits (newLimits : List NewLimit) (totalNewLimit : ℚ)
    (writeOk : ℕ → Bool) : ApplyResult :=
  let r := newLimits.foldl (applyStep writeOk) ([], [], [])
  ⟨r.1, r.2.1, r.2.2, totalNewLimit, true⟩

/-- Everything one `checkPowerControlAdjustment` call does (`src/main.js`):
the device writes issued, the per-inverter state updates, the per-device
write errors, the `currentPowerLimit` and `powerControlActive` adapter
states written this tick (`none` = untouched), and the value of the
`lastDecreaseTime` field after the tick. -/
structure TickResult where
  writes : List (ℕ × ℚ)
  inverterLimitStates : List (ℕ × ℚ)
  writeErrors : List ℕ
  currentPowerLimit : Option ℚ
  powerControlActive : Option Bool
  lastDecreaseTime : Option ℚ
deriving DecidableEq

/-- Lift an actuator result into a tick result with the given final
`lastDecreaseTime` field value. -/
def liftApply (a : ApplyResult) (last : Option ℚ) : TickResult :=
  ⟨a.writes, a.inverterLimitStates, a.writeErrors,
    some a.currentPowerLimit, some a.powerControlActive, last⟩

/-- The JS admission test `!this.lastDecreaseTime || (now - this.lastDecreaseTime) >= decreaseDelay`
(`src/main.js`).  A stored timestamp `0` is falsy in JS, hence admitted;
real `Date.now()` values are positive, so that branch is unreachable in the
running system. -/
def decreaseAllowed (lastDecreaseTime : Option ℚ) (now decreaseDelay : ℚ) : Bool :=
  match lastDecreaseTime with
  | none => true
  | some t => decide (t = 0) || decide (decreaseDelay ≤ now - t)

/-- The part of `checkPowerControlAdjustment` after the significance gate
has passed (`src/main.js`): an increase is applied immediately and the
decrease timer is reset to `null`; a decrease is applied only if
`decreaseAllowed` holds for `decreaseDelay = pollingInterval * 3`, setting
the timer to `now`, and otherwise only `powerControlActive := false` is
written. -/
def gatesAndApply (cfg : Config) (r : CalcResult) (writeOk : ℕ → Bool)
    (now : ℚ) (lastDecreaseTime : Option ℚ) : TickResult :=
  let isDecrease := r.totalNewLimit < r.totalOldLimit
  if ¬ isDecrease then
    liftApply (applyInverterPowerLimits r.newLimits r.totalNewLimit writeOk) none
  else
    let decreaseDelay := cfg.pollingInterval * 3
    if decreaseAllowed lastDecreaseTime now decreaseDelay then
      liftApply (applyInverterPowerLimits r.newLimits r.totalNewLimit writeOk) (some now)
    else
      ⟨[], [], [], none, some false, lastDecreaseTime⟩

/-- One evaluation tick, from `Zeropv.checkPowerControlAdjustment`
(`src/main.js`): read the snapshot; abort (warn only) if it is empty;
plan; compare the post-clamp aggregate change against the threshold;
below threshold write `powerControlActive := false`, otherwise run the
direction gates and the actuator. -/
def checkPowerControlAdjustment (cfg : Config) (reads : ℕ → ReadResult)
    (writeOk : ℕ → Bool) (now : ℚ) (lastDecreaseTime : Option ℚ)
    (currentGridPower : ℚ) : TickResult :=
  let currentLimits := getAllInverterLimits cfg reads
  if currentLimits.length = 0 then
    ⟨[], [], [], none, none, lastDecreaseTime⟩
  else
    let r := calculateNewClampedLimits currentGridPower currentLimits cfg
    let actualLimitChange := |r.totalNewLimit - r.totalOldLimit|
    if cfg.feedInThreshold ≤ actualLimitChange then
      gatesAndApply cfg r writeOk now lastDecreaseTime
    else
      ⟨[], [], [], none, some false, lastDecreaseTime⟩

/-- One inverter entry of the raw (pre-validation) configuration:
`none` models a missing (`undefined`/`null`) field. -/
structure RawInverter where
  inverterObject : Option String
  maxPower : Option ℚ
deriving DecidableEq

/-- The raw adapter configuration as `ConfigValidator.validateAndNormalize`
receives it: `none` models a missing field. -/
structure RawConfig where
  powerSourceObject : Option String
  inverters : Option (List RawInverter)
  pollingInterval : Option ℚ
  feedInThreshold : Option ℚ
  targetFeedIn : Option ℚ
deriving DecidableEq

/-- JavaScript falsiness of an optional string (`undefined`, `null` and
the empty string are falsy). -/
def strFalsy : Option String → Bool
  | none => true
  | some s => decide (s = "")

/-- The maxPower normalization of `ConfigValidator.validateAndNormalize`
(`src/lib/config-validator.js`): missing, above `2250` or negative values
are replaced by `2250`; everything else (including `0`) is kept. -/
def normalizeMaxPower : Option ℚ → ℚ
  | none => 2250
  | some v => if 2250 < v then 2250 else if v < 0 then 2250 else v

/-- The pollingInterval normalization: falsy (missing or `0`) or below
`1000` becomes the default `10000`. -/
def normalizePollingInterval : Option ℚ → ℚ
  | none => 10000
  | some v => if v = 0 then 10000 else if v < 1000 then 10000 else v

/-- The feedInThreshold normalization: falsy (missing or `0`) or below
`50` becomes the default `100`. -/
def normalizeFeedInThreshold : Option ℚ → ℚ
  | none => 100
  | some v => if v = 0 then 100 else if v < 50 then 100 else v

/-- The targetFeedIn normalization: missing or negative becomes the
default `800` (`0` is kept — the check is `=== undefined || === null || < 0`). -/
def normalizeTargetFeedIn : Option ℚ → ℚ
  | none => 800
  | some v => if v < 0 then 800 else v

/-- Configuration validation, from `ConfigValidator.validateAndNormalize`
(`src/lib/config-validator.js`): the Boolean is `isValid` (power source
present, inverter list present and non-empty, every inverter base object
present); the `Config` holds the normalized numeric fields, which the JS
code normalizes in place on the same config object. -/
def validateAndNormalize (c : RawConfig) : Bool × Config :=
  let sourceOk := !(strFalsy c.powerSourceObject)
  let invs := c.inverters.getD []
  let invListOk := (match c.inverters with
    | none => false
    | some l => !(decide (l.length = 0)))
  let eachInverterOk := invs.all fun inv => !(strFalsy inv.inverterObject)
  let isValid := sourceOk && (invListOk && eachInverterOk)
  ⟨isValid,
    { targetFeedIn := normalizeTargetFeedIn c.targetFeedIn
      feedInThreshold := normalizeFeedInThreshold c.feedInThreshold
      pollingInterval := normalizePollingInterval c.pollingInterval
      inverters := invs.map fun inv => ⟨normalizeMaxPower inv.maxPower⟩ }⟩

/-! ## Concrete instances used by witnesses and counterexamples -/

/-- Two inverters of 2250 W capacity, target export 800 W, threshold 100 W,
polling period 10000 ms (the setup of the spec's scenarios). -/
def cfgB : Config := ⟨800, 100, 10000, [⟨2250⟩, ⟨2250⟩]⟩

/-- One inverter of 2250 W capacity, same numeric configuration. -/
def cfgOne : Config := ⟨800, 100, 10000, [⟨2250⟩]⟩

/-- A read oracle returning the same numeric limit for every inverter. -/
def readsConst (v : ℚ) : ℕ → ReadResult := fun _ => ReadResult.val v

/-- A read oracle whose every read throws. -/
def readsFail : ℕ → ReadResult := fun _ => ReadResult.err

/-- A write oracle whose every write succeeds. -/
def allOk : ℕ → Bool := fun _ => true

/-- A raw configuration that passes validation with an inverter whose
configured maxPower is `0` (the validator keeps `0`: it only replaces
missing, negative or above-2250 values). -/
def rawCfgZeroMax : RawConfig :=
  ⟨some "meter.power", some [⟨some "opendtu.inv1", some 0⟩], some 5000, some 100, some 800⟩

/-- A fully explicit healthy raw configuration. -/
def rawCfgGood : RawConfig :=
  ⟨some "meter.power", some [⟨some "opendtu.inv1", some 2000⟩], none, some 75, none⟩

/-! ## Helper lemmas -/

/-- The clamped value `calcStep` computes for one snapshot entry. -/
def clampFor (cfg : Config) (newLimitPerInverter : ℚ) (l : Limit) : ℚ :=
  min newLimitPerInverter (jsOr (cfg.inverters.getD l.index ⟨0⟩).maxPower 2250)

theorem foldl_add_value (l : List Limit) (a : ℚ) :
    l.foldl (fun s x => s + x.value) a = a + (l.map Limit.value).sum := by
  induction l generalizing a with
  | nil => simp
  | cons x t ih => simp [ih, add_assoc]

theorem calcFold_fst (cfg : Config) (p : ℚ) (l : List Limit)
    (xs : List NewLimit) (s : ℚ) :
    (l.foldl (calcStep cfg p) (xs, s)).1
      = xs ++ l.map (fun x => ⟨x.index, x.value, clampFor cfg p x⟩) := by
  induction l generalizing xs s with
  | nil => simp
  | cons x t ih => simp [calcStep, clampFor, ih]

theorem calcFold_snd (cfg : Config) (p : ℚ) (l : List Limit)
    (xs : List NewLimit) (s : ℚ) :
    (l.foldl (calcStep cfg p) (xs, s)).2 = s + (l.map (clampFor cfg p)).sum := by
  induction l generalizing xs s with
  | nil => simp
  | cons x t ih => simp [calcStep, clampFor, ih, add_assoc]

theorem calc_newLimits_eq (g : ℚ) (limits : List Limit) (cfg : Config) :
    (calculateNewClampedLimits g limits cfg).newLimits
      = limits.map (fun x =>
          ⟨x.index, x.value, clampFor cfg (newLimitPerInverterOf g limits cfg) x⟩) := by
  simp [calculateNewClampedLimits, calcFold_fst]

theorem calc_totalNew_eq (g : ℚ) (limits : List Limit) (cfg : Config) :
    (calculateNewClampedLimits g limits cfg).totalNewLimit
      = (limits.map (clampFor cfg (newLimitPerInverterOf g limits cfg))).sum := by
  simp [calculateNewClampedLimits, calcFold_snd]

theorem rawNewTotalLimit_nonneg (g tot : ℚ) (cfg : Config)
    (h1 : 0 ≤ tot) (h2 : 0 ≤ cfg.targetFeedIn) :
    0 ≤ rawNewTotalLimit g tot cfg := by
  rw [rawNewTotalLimit]
  by_cases hg : 0 ≤ g
  · rw [if_pos hg]; linarith
  · rw [if_neg hg]; exact le_max_left _ _

theorem totalOldLimitOf_nonneg (limits : List Limit)
    (h : ∀ l ∈ limits, 0 ≤ l.value) : 0 ≤ totalOldLimitOf limits := by
  rw [totalOldLimitOf, foldl_add_value, zero_add]
  refine List.sum_nonneg ?_
  intro x hx
  obtain ⟨l, hl, rfl⟩ := List.mem_map.1 hx
  exact h l hl

theorem newLimitPerInverterOf_nonneg (g : ℚ) (limits : List Limit) (cfg : Config)
    (hval : ∀ l ∈ limits, 0 ≤ l.value) (htf : 0 ≤ cfg.targetFeedIn) :
    0 ≤ newLimitPerInverterOf g limits cfg := by
  rw [newLimitPerInverterOf]
  have h0 : 0 ≤ rawNewTotalLimit g (totalOldLimitOf limits) cfg :=
    rawNewTotalLimit_nonneg _ _ _ (totalOldLimitOf_nonneg _ hval) htf
  have hd : 0 ≤ rawNewTotalLimit g (totalOldLimitOf limits) cfg /
      (cfg.inverters.length : ℚ) :=
    div_nonneg h0 (Nat.cast_nonneg _)
  exact_mod_cast Int.floor_nonneg.2 hd

theorem applyFold_writes (w : ℕ → Bool) (l : List NewLimit)
    (xs ys : List (ℕ × ℚ)) (zs : List ℕ) :
    (l.foldl (applyStep w) (xs, ys, zs)).1
      = xs ++ l.filterMap (fun x =>
          if x.newValue = x.oldValue then none else some (x.index, x.newValue)) := by
  induction l generalizing xs ys zs with
  | nil => simp
  | cons x t ih =>
    by_cases hx : x.newValue = x.oldValue
    · simp [applyStep, hx, ih]
    · by_cases hw : w x.index <;> simp [applyStep, hx, hw, ih]

theorem normalizePollingInterval_ge (o : Option ℚ) :
    1000 ≤ normalizePollingInterval o := by
  cases o with
  | none => norm_num [normalizePollingInterval]
  | some v =>
    rw [normalizePollingInterval]
    by_cases h0 : v = 0
    · rw [if_pos h0]; norm_num
    · rw [if_neg h0]
      by_cases h1 : v < 1000
      · rw [if_pos h1]; norm_num
      · rw [if_neg h1]; exact not_lt.1 h1

theorem normalizeFeedInThreshold_ge (o : Option ℚ) :
    50 ≤ normalizeFeedInThreshold o := by
  cases o with
  | none => norm_num [normalizeFeedInThreshold]
  | some v =>
    rw [normalizeFeedInThreshold]
    by_cases h0 : v = 0
    · rw [if_pos h0]; norm_num
    · rw [if_neg h0]
      by_cases h1 : v < 50
      · rw [if_pos h1]; norm_num
      · rw [if_neg h1]; exact not_lt.1 h1

theorem normalizeTargetFeedIn_nonneg (o : Option ℚ) :
    0 ≤ normalizeTargetFeedIn o := by
  cases o with
  | none => norm_num [normalizeTargetFeedIn]
  | some v =>
    rw [normalizeTargetFeedIn]
    by_cases h1 : v < 0
    · rw [if_pos h1]; norm_num
    · rw [if_neg h1]; exact not_lt.1 h1

theorem normalizeMaxPower_bounds (o : Option ℚ) :
    0 ≤ normalizeMaxPower o ∧ normalizeMaxPower o ≤ 2250 := by
  cases o with
  | none => norm_num [normalizeMaxPower]
  | some v =>
    rw [normalizeMaxPower]
    by_cases h1 : 2250 < v
    · rw [if_pos h1]; norm_num
    · rw [if_neg h1]
      by_cases h2 : v < 0
      · rw [if_pos h2]; norm_num
      · rw [if_neg h2]; exact ⟨not_lt.1 h2, not_lt.1 h1⟩

/-! ## Claim theorems -/

/-- Claim C2, counterexample.  The claim fails as stated: a validated
configuration may carry `maxPower = 0` (the validator keeps `0`), but
`calculateNewClampedLimits` clamps with `inverter.maxPower || 2250`, in
which `0` is falsy, so the planned `newValue` (here `800`) exceeds the
configured `maxPower` (`0`). -/
theorem plan_clamp_bounds_counterexample :
    (validateAndNormalize rawCfgZeroMax).1 = true ∧
    (validateAndNormalize rawCfgZeroMax).2.inverters = [⟨0⟩] ∧
    (calculateNewClampedLimits 0 [⟨0, 0⟩] (validateAndNormalize rawCfgZeroMax).2).newLimits
      = [⟨0, 0, 800⟩] ∧
    ¬ ((800 : ℚ) ≤ 0) := by
  refine ⟨?_, ?_, ?_, by norm_num⟩
  · simp [validateAndNormalize, rawCfgZeroMax, strFalsy]
  · simp [validateAndNormalize, rawCfgZeroMax, normalizeMaxPower]
  · norm_num [validateAndNormalize, rawCfgZeroMax, normalizeMaxPower,
      normalizeTargetFeedIn, normalizeFeedInThreshold, normalizePollingInterval,
      calculateNewClampedLimits, newLimitPerInverterOf, totalOldLimitOf,
      rawNewTotalLimit, calcStep, jsOr]

/-- Claim C2, amended.  For every plan produced by `calculateNewClampedLimits`
from a grid-power sample, a non-empty list of current limits whose values
are nonnegative and whose indices refer to configured inverters, and a
validated configuration in which every inverter's `maxPower` is positive:
`totalNewLimit` is exactly the sum of the per-inverter `newValue` fields,
and every `newValue` satisfies `0 ≤ newValue ≤ maxPower` of its inverter.
(The original claim, without the positivity of `maxPower` and the
nonnegativity of the read limits, is false — see the counterexample.) -/
theorem plan_conservation_and_clamp_bounds (g : ℚ) (limits : List Limit)
    (cfg : Config)
    (hne : limits ≠ [])
    (hidx : ∀ l ∈ limits, l.index < cfg.inverters.length)
    (hval : ∀ l ∈ limits, 0 ≤ l.value)
    (hmax : ∀ inv ∈ cfg.inverters, 0 < inv.maxPower)
    (htf : 0 ≤ cfg.targetFeedIn) :
    (calculateNewClampedLimits g limits cfg).totalNewLimit
        = ((calculateNewClampedLimits g limits cfg).newLimits.map NewLimit.newValue).sum
      ∧ ∀ nl ∈ (calculateNewClampedLimits g limits cfg).newLimits,
          0 ≤ nl.newValue ∧
          nl.newValue ≤ (cfg.inverters.getD nl.index ⟨0⟩).maxPower := by
  constructor
  · rw [calc_totalNew_eq, calc_newLimits_eq, List.map_map]
    rfl
  · intro nl hnl
    rw [calc_newLimits_eq] at hnl
    obtain ⟨l, hl, rfl⟩ := List.mem_map.1 hnl
    have hidx' : l.index < cfg.inverters.length := hidx l hl
    have hmem : cfg.inverters.getD l.index ⟨0⟩ ∈ cfg.inverters := by
      rw [List.getD_eq_getElem _ _ hidx']
      exact List.getElem_mem _
    have hmp : 0 < (cfg.inverters.getD l.index ⟨0⟩).maxPower := hmax _ hmem
    have hjs : jsOr (cfg.inverters.getD l.index ⟨0⟩).maxPower 2250
        = (cfg.inverters.getD l.index ⟨0⟩).maxPower := by
      rw [jsOr, if_neg (ne_of_gt hmp)]
    constructor
    · show (0 : ℚ) ≤ clampFor cfg (newLimitPerInverterOf g limits cfg) l
      exact le_min (newLimitPerInverterOf_nonneg g limits cfg hval htf)
        (by rw [hjs]; exact le_of_lt hmp)
    · show clampFor cfg (newLimitPerInverterOf g limits cfg) l ≤
        (cfg.inverters.getD l.index ⟨0⟩).maxPower
      rw [clampFor, hjs]
      exact min_le_right _ _

/-- Claim C2, witness for the amended theorem at Scenario B's inputs. -/
theorem plan_conservation_and_clamp_bounds_witness :
    (calculateNewClampedLimits (-1200) [⟨0, 1000⟩, ⟨1, 1000⟩] cfgB).totalNewLimit
        = ((calculateNewClampedLimits (-1200) [⟨0, 1000⟩, ⟨1, 1000⟩] cfgB).newLimits.map
            NewLimit.newValue).sum
      ∧ ∀ nl ∈ (calculateNewClampedLimits (-1200) [⟨0, 1000⟩, ⟨1, 1000⟩] cfgB).newLimits,
          0 ≤ nl.newValue ∧
          nl.newValue ≤ (cfgB.inverters.getD nl.index ⟨0⟩).maxPower :=
  plan_conservation_and_clamp_bounds (-1200) [⟨0, 1000⟩, ⟨1, 1000⟩] cfgB
    (by simp)
    (by intro l hl; simp only [List.mem_cons, List.not_mem_nil, or_false] at hl
        rcases hl with rfl | rfl <;> norm_num [cfgB])
    (by intro l hl; simp only [List.mem_cons, List.not_mem_nil, or_false] at hl
        rcases hl with rfl | rfl <;> norm_num)
    (by intro inv hinv
        simp only [cfgB, List.mem_cons, List.not_mem_nil, or_false] at hinv
        rcases hinv with rfl | rfl <;> norm_num)
    (by norm_num [cfgB])

/-- Claim C3, counterexample.  On the import branch the live planner
(`src/lib/power-calculator.js`, the module `src/main.js` delegates to)
adds `config.targetFeedIn`: with one inverter, current limit 100 W,
`g = 50 ≥ 0` and `targetFeedIn = 800`, the aggregate raw target is
`100 + 50 + 800 = 950`, not `totalOld + g = 150`. -/
theorem import_branch_counterexample :
    totalOldLimitOf [⟨0, 100⟩] = 100 ∧
    rawNewTotalLimit 50 (totalOldLimitOf [⟨0, 100⟩]) cfgOne = 950 ∧
    (calculateNewClampedLimits 50 [⟨0, 100⟩] cfgOne).totalNewLimit = 950 ∧
    (950 : ℚ) ≠ 100 + 50 := by
  refine ⟨?_, ?_, ?_, by norm_num⟩ <;>
    norm_num [totalOldLimitOf, rawNewTotalLimit, cfgOne, calculateNewClampedLimits,
      newLimitPerInverterOf, calcStep, jsOr]

/-- Claim C3, amended.  For every grid-power sample `g ≥ 0` (importing) and every
list of current limits, the planner's aggregate raw target equals
`totalOld + g + targetFeedIn`: the (nonnegative) target-feed-in
configuration value also contributes on the import branch. -/
theorem import_branch_target (g : ℚ) (limits : List Limit) (cfg : Config)
    (h : 0 ≤ g) :
    rawNewTotalLimit g (totalOldLimitOf limits) cfg
      = totalOldLimitOf limits + g + cfg.targetFeedIn := by
  rw [rawNewTotalLimit, if_pos h]

/-- Claim C3, witness for the amended theorem: Scenario A's import sample. -/
theorem import_branch_target_witness :
    (0 : ℚ) ≤ 500 ∧
    rawNewTotalLimit 500 (totalOldLimitOf [⟨0, 1000⟩, ⟨1, 1000⟩]) cfgB
      = totalOldLimitOf [⟨0, 1000⟩, ⟨1, 1000⟩] + 500 + cfgB.targetFeedIn :=
  ⟨by norm_num, import_branch_target 500 [⟨0, 1000⟩, ⟨1, 1000⟩] cfgB (by norm_num)⟩

/-- Claim C4.  For every exporting sample `g < 0` the aggregate raw target is
`max 0 (totalOld + (g - targetFeedInWatts))`, where `targetFeedInWatts`
is the spec's negative-convention value, i.e. `-(config.targetFeedIn)`;
and in Scenario B (two 2250 W inverters at 1000 W each, `g = -1200`,
desired export 800 W) the plan is per-device 800 W, per-inverter limits
`{800, 800}`, `totalNew = 1600`, and the 400 W aggregate change is a
decrease at or above the 100 W threshold, taking the decrease path. -/
theorem export_branch_target (g totalOld : ℚ) (cfg : Config) (h : g < 0) :
    rawNewTotalLimit g totalOld cfg
        = max 0 (totalOld + (g - (-cfg.targetFeedIn))) ∧
    calculateNewClampedLimits (-1200) [⟨0, 1000⟩, ⟨1, 1000⟩] cfgB
        = ⟨[⟨0, 1000, 800⟩, ⟨1, 1000, 800⟩], 2000, 1600⟩ ∧
    newLimitPerInverterOf (-1200) [⟨0, 1000⟩, ⟨1, 1000⟩] cfgB = 800 ∧
    |(1600 : ℚ) - 2000| = 400 ∧
    ((1600 : ℚ) < 2000) ∧
    cfgB.feedInThreshold ≤ 400 := by
  refine ⟨?_, ?_, ?_, by norm_num, by norm_num, by norm_num [cfgB]⟩
  · rw [rawNewTotalLimit, if_neg (not_le.2 h)]
    congr 1
    ring
  · norm_num [calculateNewClampedLimits, newLimitPerInverterOf, totalOldLimitOf,
      rawNewTotalLimit, calcStep, jsOr, cfgB]
  · norm_num [newLimitPerInverterOf, totalOldLimitOf, rawNewTotalLimit, cfgB]

/-- Claim C4, witness at Scenario B's grid sample. -/
theorem export_branch_target_witness :
    ((-1200 : ℚ) < 0) ∧
    rawNewTotalLimit (-1200) 2000 cfgB
      = max 0 (2000 + ((-1200) - (-cfgB.targetFeedIn))) :=
  ⟨by norm_num, (export_branch_target (-1200) 2000 cfgB (by norm_num)).1⟩

/-- Claim C5.  With a non-empty snapshot, if the post-clamp aggregate change
`|totalNewLimit - totalOldLimit|` is strictly below `feedInThreshold`, the
tick issues no device write and sets `powerControlActive := false`; at or
above the threshold (inclusive) the tick is exactly the gates/actuator
stage applied to the plan.  The comparison is on the post-clamp
`totalNewLimit` of the returned plan, not the pre-clamp raw target. -/
theorem significance_gate (cfg : Config) (reads : ℕ → ReadResult)
    (writeOk : ℕ → Bool) (now : ℚ) (last : Option ℚ) (g : ℚ)
    (hne : getAllInverterLimits cfg reads ≠ []) :
    (|(calculateNewClampedLimits g (getAllInverterLimits cfg reads) cfg).totalNewLimit
        - (calculateNewClampedLimits g (getAllInverterLimits cfg reads) cfg).totalOldLimit|
        < cfg.feedInThreshold →
      (checkPowerControlAdjustment cfg reads writeOk now last g).writes = [] ∧
      (checkPowerControlAdjustment cfg reads writeOk now last g).powerControlActive
        = some false) ∧
    (cfg.feedInThreshold ≤
        |(calculateNewClampedLimits g (getAllInverterLimits cfg reads) cfg).totalNewLimit
          - (calculateNewClampedLimits g (getAllInverterLimits cfg reads) cfg).totalOldLimit| →
      checkPowerControlAdjustment cfg reads writeOk now last g
        = gatesAndApply cfg
            (calculateNewClampedLimits g (getAllInverterLimits cfg reads) cfg)
            writeOk now last) := by
  have hlen : ¬ (getAllInverterLimits cfg reads).length = 0 := by
    simpa [List.length_eq_zero] using hne
  constructor
  · intro hlt
    rw [checkPowerControlAdjustment]
    simp only []
    rw [if_neg hlen, if_neg (not_le.2 hlt)]
    exact ⟨rfl, rfl⟩
  · intro hge
    rw [checkPowerControlAdjustment]
    simp only []
    rw [if_neg hlen, if_pos hge]

/-- Claim C5, witness: Scenario D (two inverters at 1000 W, `g = -850`, target
export 800 W) has post-clamp change 50 W below the 100 W threshold, so no
write is issued and an inactive status is reported. -/
theorem significance_gate_witness :
    getAllInverterLimits cfgB (readsConst 1000) ≠ [] ∧
    (checkPowerControlAdjustment cfgB (readsConst 1000) allOk 0 none (-850)).writes = [] ∧
    (checkPowerControlAdjustment cfgB (readsConst 1000) allOk 0 none (-850)).powerControlActive
      = some false := by
  have hlist : getAllInverterLimits cfgB (readsConst 1000) = [⟨0, 1000⟩, ⟨1, 1000⟩] := by
    simp [getAllInverterLimits, cfgB, readsConst, List.range_succ,
      List.filterMap_cons]
  have hne : getAllInverterLimits cfgB (readsConst 1000) ≠ [] := by
    rw [hlist]; simp
  refine ⟨hne, (significance_gate cfgB (readsConst 1000) allOk 0 none (-850) hne).1 ?_⟩
  rw [hlist]
  norm_num [calculateNewClampedLimits, newLimitPerInverterOf, totalOldLimitOf,
    rawNewTotalLimit, calcStep, jsOr, cfgB, abs_lt]

/-- Claim C7.  The snapshot reader includes exactly the configured inverters
whose limit read yields a parseable numeric value (a throw, a missing
state/value or a non-numeric value excludes the device — it is never
defaulted to 0 W); and with an empty snapshot the tick returns having
issued no write and touched no state (the `lastDecreaseTime` field is
unchanged), raising no error. -/
theorem snapshot_reader_partition (cfg : Config) (reads : ℕ → ReadResult)
    (writeOk : ℕ → Bool) (now : ℚ) (last : Option ℚ) (g : ℚ) :
    (∀ e : Limit, e ∈ getAllInverterLimits cfg reads ↔
      e.index < cfg.inverters.length ∧ reads e.index = ReadResult.val e.value) ∧
    (getAllInverterLimits cfg reads = [] →
      checkPowerControlAdjustment cfg reads writeOk now last g
        = ⟨[], [], [], none, none, last⟩) := by
  constructor
  · intro e
    constructor
    · intro he
      obtain ⟨i, hi, hf⟩ := List.mem_filterMap.1 he
      rw [List.mem_range] at hi
      cases hr : reads i with
      | val v =>
        rw [hr] at hf
        simp only [Option.some.injEq] at hf
        subst hf
        exact ⟨hi, hr⟩
      | err => rw [hr] at hf; cases hf
      | missing => rw [hr] at hf; cases hf
      | nonNumeric => rw [hr] at hf; cases hf
    · rintro ⟨hi, hr⟩
      refine List.mem_filterMap.2 ⟨e.index, List.mem_range.2 hi, ?_⟩
      rw [hr]
  · intro h
    rw [checkPowerControlAdjustment]
    simp [h]

/-- Claim C7, witness: with every read throwing, the tick aborts having done
nothing. -/
theorem snapshot_reader_partition_witness :
    checkPowerControlAdjustment cfgB readsFail allOk 0 (some 12345) 500
      = ⟨[], [], [], none, none, some 12345⟩ :=
  (snapshot_reader_partition cfgB readsFail allOk 0 (some 12345) 500).2
    (by norm_num [getAllInverterLimits, cfgB, readsFail, List.range_succ])

/-- Claim C8.  The actuator issues a write command exactly for the plan entries
whose `newValue` differs from `oldValue`; an unchanged entry receives no
write command at all. -/
theorem noop_entries_skipped (newLimits : List NewLimit) (totalNewLimit : ℚ)
    (writeOk : ℕ → Bool) :
    (applyInverterPowerLimits newLimits totalNewLimit writeOk).writes
      = newLimits.filterMap (fun l =>
          if l.newValue = l.oldValue then none else some (l.index, l.newValue)) := by
  simp [applyInverterPowerLimits, applyFold_writes]

/-- Claim C9.  The device writes issued by the actuator do not depend on which
individual writes fail (each failure is caught per device), and after all
writes settle the actuator reports `currentPowerLimit = totalNewLimit` and
`powerControlActive = true` from the plan, for every failure pattern. -/
theorem write_failures_isolated (newLimits : List NewLimit) (totalNewLimit : ℚ)
    (writeOk writeOk' : ℕ → Bool) :
    (applyInverterPowerLimits newLimits totalNewLimit writeOk).writes
      = (applyInverterPowerLimits newLimits totalNewLimit writeOk').writes ∧
    (applyInverterPowerLimits newLimits totalNewLimit writeOk).currentPowerLimit
      = totalNewLimit ∧
    (applyInverterPowerLimits newLimits totalNewLimit writeOk).powerControlActive
      = true := by
  refine ⟨?_, rfl, rfl⟩
  simp [applyInverterPowerLimits, applyFold_writes]

/-- Claim C1, failing evaluation.  An applied increase does NOT leave the stored
last-decrease timestamp unchanged: `checkPowerControlAdjustment` executes
`this.lastDecreaseTime = null` on the increase path.  Concretely, with one
2250 W inverter at 1000 W, a prior decrease timestamp `50000`, and an
grid sample `g = 500` (plan 1000 W → 2250 W, an applied increase), the
tick ends with the timestamp cleared to `none` instead of `some 50000`. -/
theorem increase_clears_cooldown_timer :
    checkPowerControlAdjustment cfgOne (readsConst 1000) allOk 60000 (some 50000) 500
      = ⟨[(0, 2250)], [(0, 2250)], [], some 2250, some true, none⟩ ∧
    (1000 : ℚ) < 2250 ∧
    (checkPowerControlAdjustment cfgOne (readsConst 1000) allOk 60000
        (some 50000) 500).lastDecreaseTime ≠ some 50000 := by
  have hlist : getAllInverterLimits cfgOne (readsConst 1000) = [⟨0, 1000⟩] := by
    simp [getAllInverterLimits, cfgOne, readsConst, List.range_succ,
      List.filterMap_cons]
  have hcalc : calculateNewClampedLimits 500 [⟨0, 1000⟩] cfgOne
      = ⟨[⟨0, 1000, 2250⟩], 1000, 2250⟩ := by
    norm_num [calculateNewClampedLimits, newLimitPerInverterOf, totalOldLimitOf,
      rawNewTotalLimit, calcStep, jsOr, cfgOne]
  have htick : checkPowerControlAdjustment cfgOne (readsConst 1000) allOk 60000
      (some 50000) 500 = ⟨[(0, 2250)], [(0, 2250)], [], some 2250, some true, none⟩ := by
    rw [checkPowerControlAdjustment]
    simp only [hlist, hcalc]
    norm_num [gatesAndApply, liftApply, applyInverterPowerLimits, applyStep,
      allOk, le_abs, cfgOne]
  refine ⟨htick, by norm_num, ?_⟩
  rw [htick]
  simp

/-- Claim C6, failing trace.  Per tick the decrease gate behaves as claimed, but
the claim's consequence — two decreases are never applied less than the
cooldown (3 × pollingInterval = 30000 ms) apart — fails, because an
applied increase clears the timer.  Trace with one 2250 W inverter,
polling 10000 ms: a decrease is applied at t = 100000 (timestamp set to
100000); at t = 110000 an increase is applied, and the resulting timestamp
is `none` (this tick's input timestamp `some 100000` is tick 1's output);
at t = 120000 a decrease is applied again (its input timestamp `none` is
tick 2's output) although only 20000 ms < 30000 ms have elapsed since the
previous applied decrease. -/
theorem decrease_cooldown_violated_after_increase :
    checkPowerControlAdjustment cfgOne (readsConst 1000) allOk 100000 none (-2000)
      = ⟨[(0, 0)], [(0, 0)], [], some 0, some true, some 100000⟩ ∧
    checkPowerControlAdjustment cfgOne (readsConst 0) allOk 110000 (some 100000) 1000
      = ⟨[(0, 1800)], [(0, 1800)], [], some 1800, some true, none⟩ ∧
    checkPowerControlAdjustment cfgOne (readsConst 1800) allOk 120000 none (-2800)
      = ⟨[(0, 0)], [(0, 0)], [], some 0, some true, some 120000⟩ ∧
    (120000 : ℚ) - 100000 < 3 * cfgOne.pollingInterval := by
  refine ⟨?_, ?_, ?_, by norm_num [cfgOne]⟩
  · have hlist : getAllInverterLimits cfgOne (readsConst 1000) = [⟨0, 1000⟩] := by
      simp [getAllInverterLimits, cfgOne, readsConst, List.range_succ,
        List.filterMap_cons]
    have hcalc : calculateNewClampedLimits (-2000) [⟨0, 1000⟩] cfgOne
        = ⟨[⟨0, 1000, 0⟩], 1000, 0⟩ := by
      norm_num [calculateNewClampedLimits, newLimitPerInverterOf, totalOldLimitOf,
        rawNewTotalLimit, calcStep, jsOr, cfgOne]
    rw [checkPowerControlAdjustment]
    simp only [hlist, hcalc]
    norm_num [gatesAndApply, decreaseAllowed, liftApply, applyInverterPowerLimits,
      applyStep, allOk, le_abs, cfgOne]
  · have hlist : getAllInverterLimits cfgOne (readsConst 0) = [⟨0, 0⟩] := by
      simp [getAllInverterLimits, cfgOne, readsConst, List.range_succ,
        List.filterMap_cons]
    have hcalc : calculateNewClampedLimits 1000 [⟨0, 0⟩] cfgOne
        = ⟨[⟨0, 0, 1800⟩], 0, 1800⟩ := by
      norm_num [calculateNewClampedLimits, newLimitPerInverterOf, totalOldLimitOf,
        rawNewTotalLimit, calcStep, jsOr, cfgOne]
    rw [checkPowerControlAdjustment]
    simp only [hlist, hcalc]
    norm_num [gatesAndApply, liftApply, applyInverterPowerLimits,
      applyStep, allOk, le_abs, cfgOne]
  · have hlist : getAllInverterLimits cfgOne (readsConst 1800) = [⟨0, 1800⟩] := by
      simp [getAllInverterLimits, cfgOne, readsConst, List.range_succ,
        List.filterMap_cons]
    have hcalc : calculateNewClampedLimits (-2800) [⟨0, 1800⟩] cfgOne
        = ⟨[⟨0, 1800, 0⟩], 1800, 0⟩ := by
      norm_num [calculateNewClampedLimits, newLimitPerInverterOf, totalOldLimitOf,
        rawNewTotalLimit, calcStep, jsOr, cfgOne]
    rw [checkPowerControlAdjustment]
    simp only [hlist, hcalc]
    norm_num [gatesAndApply, decreaseAllowed, liftApply, applyInverterPowerLimits,
      applyStep, allOk, le_abs, cfgOne]

/-- Claim C10.  Whenever `validateAndNormalize` reports a valid configuration,
the normalized values satisfy `pollingInterval ≥ 1000`,
`feedInThreshold ≥ 50`, `targetFeedIn ≥ 0` (a nonnegative export
magnitude, defaulting to `800` when the field is absent), and every
inverter's `maxPower` lies in `[0, 2250]`. -/
theorem config_validation_bounds (c : RawConfig)
    (h : (validateAndNormalize c).1 = true) :
    1000 ≤ (validateAndNormalize c).2.pollingInterval ∧
    50 ≤ (validateAndNormalize c).2.feedInThreshold ∧
    0 ≤ (validateAndNormalize c).2.targetFeedIn ∧
    (c.targetFeedIn = none → (validateAndNormalize c).2.targetFeedIn = 800) ∧
    ∀ inv ∈ (validateAndNormalize c).2.inverters,
      0 ≤ inv.maxPower ∧ inv.maxPower ≤ 2250 := by
  refine ⟨normalizePollingInterval_ge _, normalizeFeedInThreshold_ge _,
    normalizeTargetFeedIn_nonneg _, ?_, ?_⟩
  · intro hnone
    show normalizeTargetFeedIn c.targetFeedIn = 800
    rw [hnone, normalizeTargetFeedIn]
  · intro inv hinv
    have : inv ∈ (c.inverters.getD []).map fun i => (⟨normalizeMaxPower i.maxPower⟩ : Inverter) := hinv
    obtain ⟨raw, _, rfl⟩ := List.mem_map.1 this
    exact normalizeMaxPower_bounds raw.maxPower

/-- Claim C10, witness: a healthy raw configuration with missing polling interval
and missing target feed-in validates, and the theorem's bounds hold for
its normalization. -/
theorem config_validation_bounds_witness :
    (validateAndNormalize rawCfgGood).1 = true ∧
    (1000 ≤ (validateAndNormalize rawCfgGood).2.pollingInterval ∧
      50 ≤ (validateAndNormalize rawCfgGood).2.feedInThreshold ∧
      0 ≤ (validateAndNormalize rawCfgGood).2.targetFeedIn ∧
      (rawCfgGood.targetFeedIn = none →
        (validateAndNormalize rawCfgGood).2.targetFeedIn = 800) ∧
      ∀ inv ∈ (validateAndNormalize rawCfgGood).2.inverters,
        0 ≤ inv.maxPower ∧ inv.maxPower ≤ 2250) :=
  ⟨by simp [validateAndNormalize, rawCfgGood, strFalsy],
    config_validation_bounds rawCfgGood
      (by simp [validateAndNormalize, rawCfgGood, strFalsy])⟩

end ZeroPV
